import Mathlib

/-!
Verification of the query/filter core of the mac-calendar-mcp server
(src/mac_calendar_mcp/server.py) over the EventKit data source modelled by
tests/mocks/mock_eventkit.py.  All definitions are shallow embeddings of the
Python source; theorems check the natural-language specification against them.
-/

namespace MacCal

/-- A Python naive `datetime`.  The proleptic-Gregorian calendar date
(year, month, day) is held as its day number relative to 1970-01-01 (the
bijection computed by `days_from_civil` below); the time-of-day fields are
kept verbatim.  Values produced by `datetime.fromisoformat`, `datetime.now`
and `datetime(...)` are represented in this form. -/
structure DT where
  days : Int
  hour : Int
  minute : Int
  second : Int
  microsecond : Int
deriving DecidableEq, Repr

/-- Day number of a civil date (days since 1970-01-01), for year ≥ 1 as
Python's `datetime` requires; standard civil-calendar day-count algorithm. -/
def days_from_civil (y m d : Int) : Int :=
  let yAdj := if m ≤ 2 then y - 1 else y
  let era := yAdj.fdiv 400
  let yoe := yAdj - era * 400
  let mp := (m + 9) % 12
  let doy := (153 * mp + 2) / 5 + d - 1
  let doe := yoe * 365 + yoe / 4 - yoe / 100 + doy
  era * 146097 + doe - 719468

/-- Build a `DT` from civil fields, as `datetime(y, mo, d, h, mi, s, micro)`
does for in-range fields. -/
def mkDT (y mo d h mi s micro : Int) : DT :=
  ⟨days_from_civil y mo d, h, mi, s, micro⟩

/-- `datetime.timestamp()` composed with `NSDate.timeIntervalSince1970`:
the instant of a naive datetime, in microseconds since the epoch.  The
constant local-timezone shift applied by Python's `timestamp()` is the same
on both sides of every comparison the code makes, so it is dropped. -/
def DT.ts (d : DT) : Int :=
  d.days * 86400000000 + d.hour * 3600000000 + d.minute * 60000000 +
    d.second * 1000000 + d.microsecond

/-- `dt.replace(hour=0, minute=0, second=0, microsecond=0)`. -/
def DT.floorDay (d : DT) : DT := ⟨d.days, 0, 0, 0, 0⟩

/-- `dt.replace(hour=23, minute=59, second=59, microsecond=999999)`. -/
def DT.endOfDay (d : DT) : DT := ⟨d.days, 23, 59, 59, 999999⟩

/-- `dt + timedelta(days=n)`: naive datetimes shift the date, keeping the
time of day. -/
def DT.addDays (d : DT) (n : Int) : DT := ⟨d.days + n, d.hour, d.minute, d.second, d.microsecond⟩

/-- Time-of-day fields within the ranges every actual Python `datetime`
satisfies. -/
def DT.validTime (d : DT) : Prop :=
  0 ≤ d.hour ∧ d.hour ≤ 23 ∧ 0 ≤ d.minute ∧ d.minute ≤ 59 ∧
    0 ≤ d.second ∧ d.second ≤ 59 ∧ 0 ≤ d.microsecond ∧ d.microsecond ≤ 999999

instance (d : DT) : Decidable d.validTime := by unfold DT.validTime; infer_instance

/-- Date-range resolution of `get_events` (server.py lines 141-157): a
present start is floored to midnight exactly when it parses with
hour = minute = second = 0, otherwise kept; a present end goes to
end-of-day when it falls on the resolved start's date or parses at
midnight; an absent end is start plus `days_ahead` days at end-of-day. -/
def resolveEventsRange (start_date end_date : Option DT) (days_ahead : Int) (now : DT) :
    DT × DT :=
  let start_dt :=
    match start_date with
    | some d => if d.hour = 0 ∧ d.minute = 0 ∧ d.second = 0 then d.floorDay else d
    | none => now.floorDay
  let end_dt :=
    match end_date with
    | some d =>
        if d.days = start_dt.days ∨ (d.hour = 0 ∧ d.minute = 0 ∧ d.second = 0) then
          d.endOfDay
        else d
    | none => (start_dt.addDays days_ahead).endOfDay
  (start_dt, end_dt)

/-- Date-range resolution of `get_reminders` (server.py lines 302-314): a
present start is floored to midnight unconditionally; a present end goes
to end-of-day only when it parses at midnight; an absent end is start plus
`days_ahead` days at end-of-day. -/
def resolveRemindersRange (start_date end_date : Option DT) (days_ahead : Int) (now : DT) :
    DT × DT :=
  let start_dt :=
    match start_date with
    | some d => d.floorDay
    | none => now.floorDay
  let end_dt :=
    match end_date with
    | some d =>
        if d.hour = 0 ∧ d.minute = 0 ∧ d.second = 0 then d.endOfDay else d
    | none => (start_dt.addDays days_ahead).endOfDay
  (start_dt, end_dt)

/-! ## Raw data source (EventKit store, as modelled by mock_eventkit.py) -/

/-- EventKit participant-status and availability constants
(mock_eventkit.py lines 348-365). -/
def EKParticipantStatusUnknown : Int := 0
def EKParticipantStatusPending : Int := 1
def EKParticipantStatusAccepted : Int := 2
def EKParticipantStatusDeclined : Int := 3
def EKParticipantStatusTentative : Int := 4
def EKEventAvailabilityBusy : Int := 0
def EKEventAvailabilityFree : Int := 1

/-- An `EKParticipant` (MockEKParticipant): `none` accessor results model
Python `None`. -/
structure Participant where
  name : Option String
  email : Option String
  status : Int
  isCurrentUser : Bool
deriving DecidableEq, Repr

/-- An `EKCalendar` (MockEKCalendar). -/
structure Calendar where
  title : String
  type : String
  color : String
  sourceTitle : String
deriving DecidableEq, Repr

/-- An `EKEvent` (MockEKEvent).  `startTs`/`endTs` are the stored `NSDate`
timestamps in microseconds; `availability = none` models an
`availability()` accessor that raises. -/
structure RawEvent where
  title : Option String
  startTs : Int
  endTs : Int
  calendarTitle : String
  notes : Option String
  organizerName : Option String
  attendees : List Participant
  isAllDay : Bool
  location : Option String
  url : Option String
  availability : Option Int
deriving DecidableEq, Repr

/-- An `NSDateComponents` due date (MockEKDateComponents); `-1` is the
unset sentinel the server checks for. -/
structure DueComponents where
  year : Int
  month : Int
  day : Int
  hour : Int
  minute : Int
  second : Int
deriving DecidableEq, Repr

/-- An `EKReminder` (MockEKReminder); `completionTs` in microseconds. -/
structure RawReminder where
  title : Option String
  calendarTitle : String
  due : Option DueComponents
  isCompleted : Bool
  completionTs : Option Int
  priority : Int
  notes : Option String
deriving DecidableEq, Repr

/-- The `MockEKEventStore` contents.  `calendarsForEntityType_` returns the
same calendar list for both entity types (mock_eventkit.py line 280). -/
structure Store where
  calendars : List Calendar
  events : List RawEvent
  reminders : List RawReminder
deriving DecidableEq, Repr

/-- `MockEKEventStore.eventsMatchingPredicate_` (mock_eventkit.py lines
299-318): keep events with `event_start <= end_ts and event_end >= start_ts`
whose calendar title is among the predicate's calendars. -/
def eventsMatchingPredicate (store : Store) (startTs endTs : Int)
    (cals : List Calendar) : List RawEvent :=
  store.events.filter fun ev =>
    decide (ev.startTs ≤ endTs ∧ ev.endTs ≥ startTs ∧
      ev.calendarTitle ∈ cals.map Calendar.title)

/-- `MockEKEventStore.fetchRemindersMatchingPredicate_completion_`
(mock_eventkit.py lines 333-345): keep reminders whose calendar title is
among the predicate's calendars. -/
def fetchReminders (store : Store) (cals : List Calendar) : List RawReminder :=
  store.reminders.filter fun r =>
    decide (r.calendarTitle ∈ cals.map Calendar.title)

/-! ## Small string helpers (Python `in` and `.lower()`) -/

/-- Python `needle in hay` on character lists. -/
def charsContain (needle : List Char) : List Char → Bool
  | [] => needle.isEmpty
  | c :: rest => needle.isPrefixOf (c :: rest) || charsContain needle rest

/-- Python `needle in hay` for strings. -/
def strContains (hay needle : String) : Bool :=
  charsContain needle.toList hay.toList

/-! ## extract_meeting_url (server.py lines 89-110) -/

/-- Python `\s` on the characters appearing in notes. -/
def isPySpace (c : Char) : Bool :=
  c = ' ' || c = '\t' || c = '\n' || c = '\x0b' || c = '\x0c' || c = '\r'

/-- `re.search` of `https://[^\s]*DOMAIN[^\s]*` with `re.IGNORECASE`:
scan for the leftmost position starting (case-insensitively) with
`https://` whose whitespace-free run contains `domain` after the scheme;
the greedy match is that whole run, returned verbatim. -/
def findUrlMatch (domain : List Char) : List Char → Option (List Char)
  | [] => none
  | c :: rest =>
    let run := (c :: rest).takeWhile fun ch => !(isPySpace ch)
    if ("https://").toList.isPrefixOf (run.map Char.toLower) &&
        charsContain domain ((run.drop 8).map Char.toLower) then
      some run
    else
      findUrlMatch domain rest

/-- One pattern of the `url_patterns` loop. -/
def find_url_pattern (domain : String) (notes : String) : Option String :=
  (findUrlMatch (domain.toList.map Char.toLower) notes.toList).map
    fun l => String.mk l

/-- The notes fallback scan of `extract_meeting_url`: the four
video-conferencing patterns, in order, first match wins. -/
def scan_notes_urls (notes : String) : Option String :=
  match find_url_pattern ("zoom.us/") notes with
  | some m => some m
  | none =>
    match find_url_pattern ("meet.google.com/") notes with
    | some m => some m
    | none =>
      match find_url_pattern ("teams.microsoft.com/") notes with
      | some m => some m
      | none => find_url_pattern ("webex.com/") notes

/-- `CalendarServer.extract_meeting_url`: the structured URL field when
truthy, else the notes scan (`notes() or ""`). -/
def extract_meeting_url (ev : RawEvent) : Option String :=
  match ev.url with
  | some u => if u ≠ "" then some u else scan_notes_urls (ev.notes.getD "")
  | none => scan_notes_urls (ev.notes.getD "")

/-! ## RSVP mapping and event projection (server.py lines 74-87, 177-229) -/

/-- `CalendarServer.get_rsvp_status` (server.py lines 74-87): a null
participant is Unknown; known status codes map to their labels; any other
code falls back to Unknown. -/
def get_rsvp_status (participant : Option Participant) : String :=
  match participant with
  | none => "Unknown"
  | some p =>
    if p.status = EKParticipantStatusAccepted then "Accepted"
    else if p.status = EKParticipantStatusDeclined then "Declined"
    else if p.status = EKParticipantStatusTentative then "Tentative"
    else if p.status = EKParticipantStatusPending then "Pending"
    else "Unknown"

/-- A projected attendee entry (the `attendee_info` dict, server.py lines
189-195). -/
structure AttendeeInfo where
  name : String
  email : String
  status : String
  is_organizer : Bool
  is_current_user : Bool
deriving DecidableEq, Repr

/-- Attendee expansion (server.py lines 189-195); `is_organizer` is always
false. -/
def project_attendee (a : Participant) : AttendeeInfo :=
  { name := a.name.getD ""
  , email := a.email.getD ""
  , status := get_rsvp_status (some a)
  , is_organizer := false
  , is_current_user := a.isCurrentUser }

/-- The current-user RSVP scan (server.py lines 182-201): `user_status`
starts as the Organizer sentinel and is overwritten by every attendee whose
`isCurrentUser` flag is set, in attendee order. -/
def user_rsvp_status (attendees : List Participant) : String :=
  attendees.foldl
    (fun acc a => if a.isCurrentUser then get_rsvp_status (some a) else acc)
    "Organizer"

/-- A projected event (the `event_dict`, server.py lines 211-228);
`start_ts`/`end_ts` hold the instants whose `isoformat` strings the dict
carries. -/
structure EventDict where
  title : String
  calendar : String
  start_ts : Int
  end_ts : Int
  all_day : Bool
  notes : String
  location : String
  meeting_url : Option String
  organizer : String
  user_rsvp_status : String
  attendee_count : Nat
  attendees : List AttendeeInfo
deriving DecidableEq, Repr

/-- Projection of one raw event (server.py lines 179-229). -/
def project_event (ev : RawEvent) : EventDict :=
  let attendees_list := ev.attendees.map project_attendee
  { title := ev.title.getD ""
  , calendar := ev.calendarTitle
  , start_ts := ev.startTs
  , end_ts := ev.endTs
  , all_day := ev.isAllDay
  , notes := ev.notes.getD ""
  , location := ev.location.getD ""
  , meeting_url := extract_meeting_url ev
  , organizer := ev.organizerName.getD ""
  , user_rsvp_status := user_rsvp_status ev.attendees
  , attendee_count := attendees_list.length
  , attendees := attendees_list }

/-! ## get_events pipeline (server.py lines 139-275) -/

/-- The calendar-list restriction (server.py lines 164-168 and 317-321):
a falsy `calendar_names` (absent or the empty list) leaves all calendars. -/
def resolve_calendars (store : Store) (calendar_names : Option (List String)) :
    List Calendar :=
  match calendar_names with
  | none => store.calendars
  | some names =>
    if names.isEmpty then store.calendars
    else store.calendars.filter fun c => names.contains c.title

/-- The raw fetch of `get_events`: resolve the range, restrict calendars,
evaluate the store predicate. -/
def fetched_events (store : Store) (now : DT) (start_date end_date : Option DT)
    (calendar_names : Option (List String)) (days_ahead : Int) : List RawEvent :=
  let range := resolveEventsRange start_date end_date days_ahead now
  eventsMatchingPredicate store range.1.ts range.2.ts
    (resolve_calendars store calendar_names)

/-- The `busy_only` pass (server.py lines 237-249): re-walk the raw fetched
events by index against the current result list, keep a result entry when
its event's availability reads as the busy code, and also keep it when the
accessor raises (the bare `except` — fail open). -/
def busy_filter (events : List RawEvent) (result : List EventDict) :
    List EventDict :=
  (events.zip result).filterMap fun p =>
    match p.1.availability with
    | some a => if a = EKEventAvailabilityBusy then some p.2 else none
    | none => some p.2

/-- `CalendarServer.get_events` (server.py lines 139-275): resolve range,
fetch, project, then the four post-filters in order (all-day, busy,
attendee name pattern, attendee status).  A falsy pattern or status list
(absent, empty string, empty list) applies no filter. -/
def get_events (store : Store) (now : DT) (start_date end_date : Option DT)
    (calendar_names : Option (List String)) (days_ahead : Int)
    (attendee_name_pattern : Option String)
    (attendee_status_filter : Option (List String))
    (all_day_only busy_only : Bool) : List EventDict :=
  let events := fetched_events store now start_date end_date calendar_names days_ahead
  let result := events.map project_event
  let result := if all_day_only then result.filter (fun e => e.all_day) else result
  let result := if busy_only then busy_filter events result else result
  let result :=
    match attendee_name_pattern with
    | some p =>
      if p = "" then result
      else
        result.filter fun e =>
          e.attendees.any fun a =>
            strContains a.name.toLower p.toLower ||
              strContains a.email.toLower p.toLower
    | none => result
  let result :=
    match attendee_status_filter with
    | some fl =>
      if fl.isEmpty then result
      else result.filter fun e => e.attendees.any fun a => fl.contains a.status
    | none => result
  result

/-! ## get_reminders pipeline (server.py lines 298-406) -/

/-- Gregorian leap year, as Python's `calendar`/`datetime` use. -/
def is_leap (y : Int) : Bool :=
  y % 4 = 0 && (y % 100 ≠ 0 || y % 400 = 0)

/-- Length of a month, for the `datetime(...)` range check. -/
def days_in_month (y m : Int) : Int :=
  if m = 2 then (if is_leap y then 29 else 28)
  else if m = 4 ∨ m = 6 ∨ m = 9 ∨ m = 11 then 30
  else 31

/-- The `datetime(year, month, day, hour, minute, second)` constructor:
`some` of the datetime for in-range fields, `none` when Python would raise
(caught by the server's bare `except`). -/
def mk_datetime (y mo d h mi s : Int) : Option DT :=
  if 1 ≤ y ∧ y ≤ 9999 ∧ 1 ≤ mo ∧ mo ≤ 12 ∧ 1 ≤ d ∧ d ≤ days_in_month y mo ∧
      0 ≤ h ∧ h ≤ 23 ∧ 0 ≤ mi ∧ mi ≤ 59 ∧ 0 ≤ s ∧ s ≤ 59 then
    some ⟨days_from_civil y mo d, h, mi, s, 0⟩
  else none

/-- Due-date reconstruction (server.py lines 355-362): `-1` sentinel
components default to 0, then the `datetime(...)` constructor runs. -/
def reconstruct_due (c : DueComponents) : Option DT :=
  mk_datetime c.year c.month c.day
    (if c.hour = -1 then 0 else c.hour)
    (if c.minute = -1 then 0 else c.minute)
    (if c.second = -1 then 0 else c.second)

/-- The priority mapping (server.py lines 384-391). -/
def priority_str (p : Int) : String :=
  if p = 0 then "None"
  else if p = 1 then "High"
  else if p = 5 then "Medium"
  else if p = 9 then "Low"
  else "None"

/-- A projected reminder (the `reminder_dict`, server.py lines 393-401);
`due_dt` holds the reconstructed datetime whose `isoformat` the dict
carries, or `none` for a null `due_date_str`. -/
structure ReminderDict where
  title : String
  calendar : String
  due_dt : Option DT
  completion_ts : Option Int
  is_completed : Bool
  priority : String
  notes : String
deriving DecidableEq, Repr

/-- The dict literal built for a kept reminder (server.py lines 375-401). -/
def reminder_dict (r : RawReminder) (due_dt : Option DT) : ReminderDict :=
  { title := r.title.getD ""
  , calendar := r.calendarTitle
  , due_dt := due_dt
  , completion_ts := r.completionTs
  , is_completed := r.isCompleted
  , priority := priority_str r.priority
  , notes := r.notes.getD "" }

/-- The per-reminder filter-and-project step (server.py lines 344-402):
drop when completed and not requested; with due components, reconstruct —
drop when the reconstructed due date falls outside `[start, end]`, degrade
to a null due date when reconstruction raises (skipping the range check);
without due components, drop exactly when a date filter was supplied. -/
def project_reminder (r : RawReminder) (start_dt end_dt : DT)
    (date_filter_given include_completed : Bool) : Option ReminderDict :=
  if !include_completed && r.isCompleted then none
  else
    match r.due with
    | some c =>
      match reconstruct_due c with
      | some due_dt =>
        if due_dt.ts < start_dt.ts ∨ due_dt.ts > end_dt.ts then none
        else some (reminder_dict r (some due_dt))
      | none => some (reminder_dict r none)
    | none =>
      if date_filter_given then none
      else some (reminder_dict r none)

/-- `CalendarServer.get_reminders` (server.py lines 298-406): resolve the
range, restrict calendars (same falsy-means-all rule), fetch, then the
per-reminder step; the date-filter flag is `start_date or end_date`
truthiness of the raw arguments. -/
def get_reminders (store : Store) (now : DT) (start_date end_date : Option DT)
    (calendar_names : Option (List String)) (include_completed : Bool)
    (days_ahead : Int) : List ReminderDict :=
  let range := resolveRemindersRange start_date end_date days_ahead now
  let reminders := fetchReminders store (resolve_calendars store calendar_names)
  reminders.filterMap fun r =>
    project_reminder r range.1 range.2
      (start_date.isSome || end_date.isSome) include_completed

/-! ## search (server.py lines 408-471) -/

/-- A search hit with its `type` tag. -/
inductive SearchItem where
  | event (e : EventDict)
  | reminder (r : ReminderDict)
deriving DecidableEq, Repr

/-- `CalendarServer.search` (server.py lines 408-471): a 30-day lookahead
in every branch of the default-range `if`; events are matched on
title/notes/location and listed first, then reminders (fetched with
`include_completed=True`) matched on title/notes. -/
def search (store : Store) (now : DT) (query : String)
    (search_events search_reminders : Bool)
    (start_date end_date : Option DT) : List SearchItem :=
  let query_lower := query.toLower
  let days_ahead : Int :=
    if !end_date.isSome && !start_date.isSome then 30 else 30
  let eventResults :=
    if search_events then
      (get_events store now start_date end_date none days_ahead none none
          false false).filter fun e =>
        strContains e.title.toLower query_lower ||
          strContains e.notes.toLower query_lower ||
          strContains e.location.toLower query_lower
    else []
  let reminderResults :=
    if search_reminders then
      (get_reminders store now start_date end_date none true
          days_ahead).filter fun r =>
        strContains r.title.toLower query_lower ||
          strContains r.notes.toLower query_lower
    else []
  eventResults.map SearchItem.event ++ reminderResults.map SearchItem.reminder

/-! ## convert_time (server.py lines 518-555)

Timezones are modelled as fixed UTC offsets in minutes (the behaviour of
`pytz` zones at any single instant); `datetime.fromisoformat` results are
given as wall-clock fields plus the optional carried offset. -/

/-- A recognized timezone, as a fixed UTC offset in minutes. -/
structure TZ where
  offsetMinutes : Int
deriving DecidableEq, Repr

/-- An offset-aware Python datetime: wall-clock fields plus the UTC offset
of their representation. -/
structure AwareDT where
  wall : DT
  offsetMinutes : Int
deriving DecidableEq, Repr

/-- The absolute instant of an aware datetime, in microseconds since the
epoch. -/
def AwareDT.epoch (a : AwareDT) : Int :=
  a.wall.ts - a.offsetMinutes * 60000000

/-- Normalize an epoch-microsecond instant back to wall-clock fields
(floor division; `/` and `%` on `Int` are Euclidean, which is floor for
the positive divisors used here). -/
def microsToDT (t : Int) : DT :=
  let r := t % 86400000000
  ⟨t / 86400000000, r / 3600000000, (r % 3600000000) / 60000000,
    (r % 60000000) / 1000000, r % 1000000⟩

/-- `dt.astimezone(tz)`: the same instant re-expressed in `tz` — the
carried offset is honoured, only the representation changes. -/
def AwareDT.astimezone (a : AwareDT) (tz : TZ) : AwareDT :=
  ⟨microsToDT (a.epoch + tz.offsetMinutes * 60000000), tz.offsetMinutes⟩

/-- The `original_datetime`/`converted_datetime` pair `convert_time`
returns. -/
structure ConvertResult where
  original : AwareDT
  converted : AwareDT
deriving DecidableEq, Repr

/-- `CalendarServer.convert_time` (server.py lines 518-555) on a parsable
input: a naive input is localized in `from_timezone`; an offset-carrying
input is `astimezone`-converted into `from_timezone`; either way the
result is then `astimezone`-converted to `to_timezone`. -/
def convert_time (wall : DT) (carriedOffsetMinutes : Option Int)
    (from_tz to_tz : TZ) : ConvertResult :=
  let dt : AwareDT :=
    match carriedOffsetMinutes with
    | none => ⟨wall, from_tz.offsetMinutes⟩
    | some off => AwareDT.astimezone ⟨wall, off⟩ from_tz
  ⟨dt, dt.astimezone to_tz⟩

/-- The conversion the specification describes instead: an offset-carrying
input has its offset replaced by `from_timezone` (wall clock
reinterpreted), then converts to `to_timezone`. -/
def convert_time_reinterpret (wall : DT) (_carriedOffsetMinutes : Option Int)
    (from_tz to_tz : TZ) : ConvertResult :=
  let dt : AwareDT := ⟨wall, from_tz.offsetMinutes⟩
  ⟨dt, dt.astimezone to_tz⟩

/-! ## Theorems -/

/-- C1: for a well-formed resolved range (start ≤ end) and no post-filters,
an event of the data source appears in the `get_events` result exactly when
`eventStart ≤ end` and `eventEnd ≥ start`, both comparisons inclusive. -/
theorem c1_unfiltered_overlap (store : Store) (now : DT) (sd ed : Option DT)
    (da : Int)
    (hwf : (resolveEventsRange sd ed da now).1.ts ≤
      (resolveEventsRange sd ed da now).2.ts)
    (hcal : ∀ ev ∈ store.events,
      ev.calendarTitle ∈ store.calendars.map Calendar.title)
    (ev : RawEvent) (hev : ev ∈ store.events) :
    project_event ev ∈ get_events store now sd ed none da none none false false ↔
      (ev.startTs ≤ (resolveEventsRange sd ed da now).2.ts ∧
        ev.endTs ≥ (resolveEventsRange sd ed da now).1.ts) := by
  have hpipe : get_events store now sd ed none da none none false false =
      (store.events.filter fun e =>
        decide (e.startTs ≤ (resolveEventsRange sd ed da now).2.ts ∧
          e.endTs ≥ (resolveEventsRange sd ed da now).1.ts ∧
          e.calendarTitle ∈ store.calendars.map Calendar.title)).map
        project_event := rfl
  rw [hpipe]
  constructor
  · intro h
    obtain ⟨ev', hev', heq⟩ := List.mem_map.mp h
    have hp := (List.mem_filter.mp hev').2
    rw [decide_eq_true_eq] at hp
    have hs : ev'.startTs = ev.startTs := congrArg EventDict.start_ts heq
    have he : ev'.endTs = ev.endTs := congrArg EventDict.end_ts heq
    exact ⟨hs ▸ hp.1, he ▸ hp.2.1⟩
  · intro h
    refine List.mem_map_of_mem project_event (List.mem_filter.mpr ⟨hev, ?_⟩)
    rw [decide_eq_true_eq]
    exact ⟨h.1, h.2, hcal ev hev⟩

/-- Witness for C1 at a concrete store: an event ending exactly at the
resolved range start is included. -/
theorem c1_unfiltered_overlap_witness :
    project_event
        ⟨none, (mkDT 2024 12 25 0 0 0 0).ts - 7200000000,
          (mkDT 2024 12 25 0 0 0 0).ts, "Work", none, none, [], false, none,
          none, some 0⟩ ∈
      get_events
        ⟨[⟨"Work", "Local", "red", "Local"⟩],
          [⟨none, (mkDT 2024 12 25 0 0 0 0).ts - 7200000000,
            (mkDT 2024 12 25 0 0 0 0).ts, "Work", none, none, [], false, none,
            none, some 0⟩], []⟩
        (mkDT 2024 12 25 0 0 0 0) (some (mkDT 2024 12 25 0 0 0 0))
        (some (mkDT 2024 12 25 0 0 0 0)) none 7 none none false false :=
  (c1_unfiltered_overlap _ _ _ _ _ (by decide) (by decide) _
    (by decide)).mpr (by decide)

/-- C5: an empty `calendar_names` list and an absent one give identical
results, for both `get_events` and `get_reminders`. -/
theorem c5_empty_calendar_filter :
    (∀ store now sd ed da anp asf ado bo,
        get_events store now sd ed (some []) da anp asf ado bo =
          get_events store now sd ed none da anp asf ado bo) ∧
      (∀ store now sd ed inc da,
        get_reminders store now sd ed (some []) inc da =
          get_reminders store now sd ed none inc da) :=
  ⟨fun _ _ _ _ _ _ _ _ _ => rfl, fun _ _ _ _ _ _ => rfl⟩

/-- The `busy_only` pass over the projections of the fetched events keeps
exactly the events whose availability reads busy or raises. -/
theorem busy_filter_projected (evs : List RawEvent) :
    busy_filter evs (evs.map project_event) =
      (evs.filter fun ev =>
        decide (ev.availability = some EKEventAvailabilityBusy ∨
          ev.availability = none)).map project_event := by
  induction evs with
  | nil => rfl
  | cons a t ih =>
    show ((a, project_event a) :: t.zip (t.map project_event)).filterMap _ = _
    rcases h : a.availability with _ | v
    · simpa [busy_filter, List.filterMap_cons, List.filter_cons, h] using ih
    · by_cases hv : v = EKEventAvailabilityBusy <;>
        simpa [busy_filter, List.filterMap_cons, List.filter_cons, h, hv] using ih

/-- C7: with `busy_only=true` (and no other post-filter), `get_events`
keeps exactly the fetched events whose raw availability equals the busy
code or whose availability accessor fails — the unreadable ones are kept,
not dropped. -/
theorem c7_busy_fail_open (store : Store) (now : DT) (sd ed : Option DT)
    (cn : Option (List String)) (da : Int) :
    get_events store now sd ed cn da none none false true =
      ((fetched_events store now sd ed cn da).filter fun ev =>
        decide (ev.availability = some EKEventAvailabilityBusy ∨
          ev.availability = none)).map project_event :=
  busy_filter_projected (fetched_events store now sd ed cn da)

/-- C10: with `end_date` absent (whether or not `start_date` is given),
`search` runs the event sub-query and the reminder sub-query with a 30-day
lookahead, the reminder sub-query with `include_completed=true`, and
returns the matching events in engine order followed by the matching
reminders, each tagged by kind. -/
theorem c10_search_defaults (store : Store) (now : DT) (q : String)
    (sd : Option DT) :
    search store now q true true sd none =
      ((get_events store now sd none none 30 none none false false).filter
          fun e =>
            strContains e.title.toLower q.toLower ||
              strContains e.notes.toLower q.toLower ||
              strContains e.location.toLower q.toLower).map SearchItem.event ++
        ((get_reminders store now sd none none true 30).filter fun r =>
          strContains r.title.toLower q.toLower ||
            strContains r.notes.toLower q.toLower).map SearchItem.reminder := by
  cases sd <;> rfl

/-- Counterexample to C2: a `startDate` parsing to 10:30 is preserved by
the events path but truncated to midnight by the reminders path, so the two
paths resolve different ranges. -/
theorem c2_range_resolution_counterexample :
    (resolveEventsRange (some (mkDT 2024 12 25 10 30 0 0)) none 7
        (mkDT 2024 12 25 0 0 0 0)).1 = mkDT 2024 12 25 10 30 0 0 ∧
      (resolveRemindersRange (some (mkDT 2024 12 25 10 30 0 0)) none 7
        (mkDT 2024 12 25 0 0 0 0)).1 = mkDT 2024 12 25 0 0 0 0 ∧
      resolveEventsRange (some (mkDT 2024 12 25 10 30 0 0)) none 7
          (mkDT 2024 12 25 0 0 0 0) ≠
        resolveRemindersRange (some (mkDT 2024 12 25 10 30 0 0)) none 7
          (mkDT 2024 12 25 0 0 0 0) := by decide

/-- C2 (amended): the two range resolutions agree whenever the supplied
start and end dates (when present) parse to exact midnight; and the
reminders path truncates a supplied start to midnight unconditionally, so a
non-midnight start is preserved only by the events path. -/
theorem c2_range_resolution_amended :
    (∀ sd ed da now,
        (∀ d, sd = some d → d.hour = 0 ∧ d.minute = 0 ∧ d.second = 0) →
        (∀ d, ed = some d → d.hour = 0 ∧ d.minute = 0 ∧ d.second = 0) →
        resolveEventsRange sd ed da now = resolveRemindersRange sd ed da now) ∧
      (∀ d ed da now,
        (resolveRemindersRange (some d) ed da now).1 = d.floorDay) := by
  constructor
  · intro sd ed da now hs he
    cases sd with
    | none =>
      cases ed with
      | none => rfl
      | some g =>
        have hg := he g rfl
        simp [resolveEventsRange, resolveRemindersRange, hg.1, hg.2.1, hg.2.2]
    | some d =>
      have hd := hs d rfl
      cases ed with
      | none =>
        simp [resolveEventsRange, resolveRemindersRange, hd.1, hd.2.1, hd.2.2]
      | some g =>
        have hg := he g rfl
        simp [resolveEventsRange, resolveRemindersRange, hd.1, hd.2.1, hd.2.2,
          hg.1, hg.2.1, hg.2.2]
  · intro d ed da now
    rfl

/-- Witness for the amended C2 at a concrete midnight start. -/
theorem c2_range_resolution_witness :
    resolveEventsRange (some (mkDT 2024 12 25 0 0 0 0)) none 7
        (mkDT 2024 12 25 0 0 0 0) =
      resolveRemindersRange (some (mkDT 2024 12 25 0 0 0 0)) none 7
        (mkDT 2024 12 25 0 0 0 0) :=
  c2_range_resolution_amended.1 _ _ _ _
    (fun d hd => by injection hd with h; subst h; exact ⟨rfl, rfl, rfl⟩)
    (fun d hd => nomatch hd)

/-- Re-normalizing an instant to wall-clock fields is the inverse of
taking its instant. -/
theorem ts_microsToDT (t : Int) : (microsToDT t).ts = t := by
  simp only [microsToDT, DT.ts]
  omega

/-- `astimezone` preserves the instant. -/
theorem astimezone_epoch (a : AwareDT) (tz : TZ) :
    (a.astimezone tz).epoch = a.epoch := by
  unfold AwareDT.astimezone AwareDT.epoch
  rw [ts_microsToDT]
  ring

/-- Counterexample to C3: converting `2024-01-01T12:00:00+05:00` with
`fromZone = toZone = UTC`, the code yields a 07:00 wall clock (the carried
offset is honoured), not the 12:00 the reinterpretation rule predicts. -/
theorem c3_convert_offset_counterexample :
    (convert_time (mkDT 2024 1 1 12 0 0 0) (some 300) ⟨0⟩ ⟨0⟩).converted.wall =
        mkDT 2024 1 1 7 0 0 0 ∧
      (convert_time_reinterpret (mkDT 2024 1 1 12 0 0 0) (some 300) ⟨0⟩
          ⟨0⟩).converted.wall = mkDT 2024 1 1 12 0 0 0 ∧
      (convert_time (mkDT 2024 1 1 12 0 0 0) (some 300) ⟨0⟩ ⟨0⟩).converted ≠
        (convert_time_reinterpret (mkDT 2024 1 1 12 0 0 0) (some 300) ⟨0⟩
          ⟨0⟩).converted := by decide

/-- C3 (amended): for an input carrying an explicit UTC offset,
`convert_time` honours that offset rather than replacing it — both the
reported original and the converted datetime denote the instant the carried
offset determines, and the conversion into `fromZone` affects only the
representation. -/
theorem c3_convert_offset_amended (wall : DT) (off : Int) (ft tt : TZ) :
    ((convert_time wall (some off) ft tt).converted).epoch =
        AwareDT.epoch ⟨wall, off⟩ ∧
      ((convert_time wall (some off) ft tt).original).epoch =
        AwareDT.epoch ⟨wall, off⟩ ∧
      ((convert_time wall (some off) ft tt).converted).offsetMinutes =
        tt.offsetMinutes := by
  refine ⟨?_, ?_, rfl⟩
  · show ((AwareDT.astimezone ⟨wall, off⟩ ft).astimezone tt).epoch = _
    rw [astimezone_epoch, astimezone_epoch]
  · show (AwareDT.astimezone ⟨wall, off⟩ ft).epoch = _
    rw [astimezone_epoch]

/-- A fold over attendees none of whom is the current user leaves the
accumulated status unchanged. -/
theorem user_rsvp_foldl_no_match (init : String) (l : List Participant)
    (h : ∀ b ∈ l, b.isCurrentUser = false) :
    l.foldl
        (fun acc a => if a.isCurrentUser then get_rsvp_status (some a) else acc)
        init = init := by
  induction l generalizing init with
  | nil => rfl
  | cons a t ih =>
    have ha := h a (List.mem_cons_self a t)
    rw [List.foldl_cons]
    simp only [ha, Bool.false_eq_true, if_false]
    exact ih init fun b hb => h b (List.mem_cons_of_mem a hb)

/-- Counterexample to C4: with two current-user attendees, the first
Accepted and the second Declined, the projected `user_rsvp_status` is the
second's status — the scan does not stop at the first match. -/
theorem c4_user_rsvp_counterexample :
    (get_events
        ⟨[⟨"Work", "Local", "red", "Local"⟩],
          [⟨none, (mkDT 2024 12 25 10 0 0 0).ts, (mkDT 2024 12 25 11 0 0 0).ts,
            "Work", none, none,
            [⟨some ("A"), none, EKParticipantStatusAccepted, true⟩,
              ⟨some ("B"), none, EKParticipantStatusDeclined, true⟩],
            false, none, none, some 0⟩], []⟩
        (mkDT 2024 12 25 0 0 0 0) (some (mkDT 2024 12 25 0 0 0 0))
        (some (mkDT 2024 12 25 0 0 0 0)) none 7 none none false
        false).map (fun e => e.user_rsvp_status) = [("Declined" : String)] ∧
      get_rsvp_status
          (some ⟨some ("A"), none, EKParticipantStatusAccepted, true⟩) =
        "Accepted" ∧
      ("Declined" : String) ≠ "Accepted" := by decide

/-- C4 (amended): the projector records the mapped status of the LAST
attendee whose `isCurrentUser` flag is set (each match overwrites the
previous one), falls back to the Organizer sentinel when there is none, and
is total (it cannot crash). -/
theorem c4_user_rsvp_amended :
    (∀ ev : RawEvent,
        (project_event ev).user_rsvp_status = user_rsvp_status ev.attendees) ∧
      (∀ (l1 : List Participant) (a : Participant) (l2 : List Participant),
        a.isCurrentUser = true →
        (∀ b ∈ l2, b.isCurrentUser = false) →
        user_rsvp_status (l1 ++ a :: l2) = get_rsvp_status (some a)) ∧
      (∀ l : List Participant, (∀ b ∈ l, b.isCurrentUser = false) →
        user_rsvp_status l = "Organizer") := by
  refine ⟨fun ev => rfl, ?_, ?_⟩
  · intro l1 a l2 ha h2
    unfold user_rsvp_status
    rw [List.foldl_append, List.foldl_cons]
    simp only [ha, if_true]
    exact user_rsvp_foldl_no_match _ l2 h2
  · intro l h
    exact user_rsvp_foldl_no_match _ l h

/-- Witness for the amended C4: the Declined second match wins. -/
theorem c4_user_rsvp_witness :
    user_rsvp_status
        [⟨some ("A"), none, EKParticipantStatusAccepted, true⟩,
          ⟨some ("B"), none, EKParticipantStatusDeclined, true⟩] =
      get_rsvp_status
        (some ⟨some ("B"), none, EKParticipantStatusDeclined, true⟩) :=
  c4_user_rsvp_amended.2.1
    [⟨some ("A"), none, EKParticipantStatusAccepted, true⟩]
    ⟨some ("B"), none, EKParticipantStatusDeclined, true⟩ [] rfl
    (fun _ hb => nomatch hb)

/-- C6: a reminder without a due date (that survives the completion and
calendar steps) is included exactly in unfiltered queries — it appears when
both dates are omitted, and the per-reminder step drops it whenever the
date-filter flag (either date supplied) is set; `get_reminders` is exactly
that per-reminder step over the fetched list, with the flag
`start_date.isSome || end_date.isSome`. -/
theorem c6_no_due_date (store : Store) (r : RawReminder) (inc : Bool)
    (hmem : r ∈ store.reminders)
    (hcal : r.calendarTitle ∈ store.calendars.map Calendar.title)
    (hdue : r.due = none)
    (hcomp : inc = true ∨ r.isCompleted = false) :
    (∀ now da,
        reminder_dict r none ∈ get_reminders store now none none none inc da) ∧
      (∀ s e, project_reminder r s e true inc = none) ∧
      (∀ now sd ed cn da,
        get_reminders store now sd ed cn inc da =
          (fetchReminders store (resolve_calendars store cn)).filterMap fun x =>
            project_reminder x (resolveRemindersRange sd ed da now).1
              (resolveRemindersRange sd ed da now).2
              (sd.isSome || ed.isSome) inc) := by
  have hc : (!inc && r.isCompleted) = false := by
    rcases hcomp with h | h <;> simp [h]
  refine ⟨?_, ?_, fun _ _ _ _ _ => rfl⟩
  · intro now da
    refine List.mem_filterMap.mpr ⟨r, List.mem_filter.mpr ⟨hmem, ?_⟩, ?_⟩
    · rw [decide_eq_true_eq]
      exact hcal
    · simp [project_reminder, hc, hdue]
  · intro s e
    simp [project_reminder, hc, hdue]

/-- Witness for C6 at a concrete one-reminder store. -/
theorem c6_no_due_date_witness :
    reminder_dict ⟨none, "Work", none, false, none, 0, none⟩ none ∈
        get_reminders
          ⟨[⟨"Work", "Local", "red", "Local"⟩], [],
            [⟨none, "Work", none, false, none, 0, none⟩]⟩
          (mkDT 2024 12 25 0 0 0 0) none none none false 7 ∧
      project_reminder ⟨none, "Work", none, false, none, 0, none⟩
        (mkDT 2024 12 25 0 0 0 0) (mkDT 2024 12 25 0 0 0 0) true false =
          none :=
  ⟨(c6_no_due_date _ _ false (by decide) (by decide) rfl (Or.inr rfl)).1
      (mkDT 2024 12 25 0 0 0 0) 7,
    (c6_no_due_date
        ⟨[⟨"Work", "Local", "red", "Local"⟩], [],
          [⟨none, "Work", none, false, none, 0, none⟩]⟩
        _ false (by decide) (by decide) rfl (Or.inr rfl)).2.1
      (mkDT 2024 12 25 0 0 0 0) (mkDT 2024 12 25 0 0 0 0)⟩

/-- C9: a reminder whose due components are present but fail to
reconstruct is still included, with a null due field, regardless of any
supplied date bounds — the failure occurs before the range comparison, so
the range drop is bypassed. -/
theorem c9_due_reconstruct_failure (store : Store) (r : RawReminder)
    (c : DueComponents) (inc : Bool)
    (hmem : r ∈ store.reminders)
    (hcal : r.calendarTitle ∈ store.calendars.map Calendar.title)
    (hdue : r.due = some c) (hfail : reconstruct_due c = none)
    (hcomp : inc = true ∨ r.isCompleted = false) :
    ∀ now sd ed da,
      reminder_dict r none ∈ get_reminders store now sd ed none inc da := by
  intro now sd ed da
  have hc : (!inc && r.isCompleted) = false := by
    rcases hcomp with h | h <;> simp [h]
  refine List.mem_filterMap.mpr ⟨r, List.mem_filter.mpr ⟨hmem, ?_⟩, ?_⟩
  · rw [decide_eq_true_eq]
    exact hcal
  · simp [project_reminder, hc, hdue, hfail]

/-- Witness for C9: month 13 fails reconstruction, yet the reminder is
returned even though both date bounds were supplied. -/
theorem c9_due_reconstruct_failure_witness :
    reminder_dict
        ⟨none, "Work", some ⟨2024, 13, 45, -1, -1, -1⟩, false, none, 0, none⟩
        none ∈
      get_reminders
        ⟨[⟨"Work", "Local", "red", "Local"⟩], [],
          [⟨none, "Work", some ⟨2024, 13, 45, -1, -1, -1⟩, false, none, 0,
            none⟩]⟩
        (mkDT 2024 12 25 0 0 0 0) (some (mkDT 2024 12 25 0 0 0 0))
        (some (mkDT 2024 12 25 0 0 0 0)) none false 7 :=
  c9_due_reconstruct_failure _ _ ⟨2024, 13, 45, -1, -1, -1⟩ false (by decide)
    (by decide) rfl (by decide) (Or.inr rfl) (mkDT 2024 12 25 0 0 0 0)
    (some (mkDT 2024 12 25 0 0 0 0)) (some (mkDT 2024 12 25 0 0 0 0)) 7

/-- Counterexample to C8: with `daysAhead = -5` the resolved end precedes
the start, yet the result is NOT empty — an event spanning the inverted
range is returned. -/
theorem c8_days_ahead_counterexample :
    ((resolveEventsRange (some (mkDT 2024 1 10 0 0 0 0)) none (-5)
          (mkDT 2024 1 10 0 0 0 0)).2).ts <
        ((resolveEventsRange (some (mkDT 2024 1 10 0 0 0 0)) none (-5)
          (mkDT 2024 1 10 0 0 0 0)).1).ts ∧
      get_events
          ⟨[⟨"Work", "Local", "red", "Local"⟩],
            [⟨none, (mkDT 2024 1 1 0 0 0 0).ts, (mkDT 2024 1 20 0 0 0 0).ts,
              "Work", none, none, [], false, none, none, some 0⟩], []⟩
          (mkDT 2024 1 10 0 0 0 0) (some (mkDT 2024 1 10 0 0 0 0)) none none
          (-5) none none false false ≠ [] := by decide

/-- C8 (amended): with `endDate` absent the resolved end is start plus
`daysAhead` days at 23:59:59.999999; `daysAhead = 0` gives same-day
end-of-day; negative `daysAhead` gives an end strictly before the start and
the query still completes, returning empty whenever no event satisfies the
overlap predicate against the inverted range (an event spanning the whole
gap is still returned). -/
theorem c8_days_ahead_amended (sd : Option DT) (da : Int) (now : DT)
    (hv : ∀ d, sd = some d → d.validTime) :
    ((resolveEventsRange sd none da now).2 =
        DT.endOfDay (DT.addDays (resolveEventsRange sd none da now).1 da)) ∧
      (da = 0 → (resolveEventsRange sd none da now).2 =
        DT.endOfDay (resolveEventsRange sd none da now).1) ∧
      (da < 0 → ((resolveEventsRange sd none da now).2).ts <
        ((resolveEventsRange sd none da now).1).ts) ∧
      (∀ (store : Store) (cn : Option (List String)),
        (∀ ev ∈ store.events,
          ¬(ev.startTs ≤ ((resolveEventsRange sd none da now).2).ts ∧
            ev.endTs ≥ ((resolveEventsRange sd none da now).1).ts)) →
        get_events store now sd none cn da none none false false = []) := by
  have h2 : (resolveEventsRange sd none da now).2 =
      DT.endOfDay (DT.addDays (resolveEventsRange sd none da now).1 da) := by
    cases sd <;> rfl
  have hval : ((resolveEventsRange sd none da now).1).validTime := by
    cases sd with
    | none =>
      show (now.floorDay).validTime
      simp only [DT.floorDay, DT.validTime]
      omega
    | some d =>
      have hd := hv d rfl
      show (if d.hour = 0 ∧ d.minute = 0 ∧ d.second = 0 then
        d.floorDay else d).validTime
      split
      · simp only [DT.floorDay, DT.validTime]
        omega
      · exact hd
  refine ⟨h2, fun h0 => by rw [h2, h0]; simp [DT.addDays, DT.endOfDay], ?_, ?_⟩
  · intro hda
    rw [h2]
    obtain ⟨hv1, hv2, hv3, hv4, hv5, hv6, hv7, hv8⟩ := hval
    simp only [DT.endOfDay, DT.addDays, DT.ts]
    omega
  · intro store cn hno
    have hpipe : get_events store now sd none cn da none none false false =
        (fetched_events store now sd none cn da).map project_event := rfl
    have hnil : fetched_events store now sd none cn da = [] := by
      refine List.filter_eq_nil_iff.mpr fun ev hev => ?_
      simp only [decide_eq_true_eq]
      intro h
      exact hno ev hev ⟨h.1, h.2.1⟩
    rw [hpipe, hnil]
    rfl

/-- Witness for the amended C8: `daysAhead = 0` yields same-day
end-of-day. -/
theorem c8_days_ahead_witness :
    (resolveEventsRange (some (mkDT 2024 12 25 0 0 0 0)) none 0
        (mkDT 2024 12 25 0 0 0 0)).2 =
      DT.endOfDay (resolveEventsRange (some (mkDT 2024 12 25 0 0 0 0)) none 0
        (mkDT 2024 12 25 0 0 0 0)).1 :=
  (c8_days_ahead_amended _ _ _
    (fun d hd => by injection hd with h; subst h; decide)).2.1 rfl

end MacCal
